import Mathlib

/-!
Shallow embedding of the rustsec report-presentation engine
(`cargo-audit/src/presenter.rs`) and the affected-version classifier
(`admin/src/list_versions.rs`).

Output to the terminal is modelled as a list of `OutputItem`s: each
`status_err!` / `status_warn!` macro call becomes a `statusErr` /
`statusWarn` item, each `print_attr` call becomes an `attr` item, the
rendered inverse dependency tree (`tree.render`, external to this crate)
becomes an opaque `treeBlock` item, and the JSON serialization of a
report (`serde_json::to_writer`, external) becomes a `jsonReport` item
carrying the full report value.  Mutation of the presenter (`&mut self`)
is modelled by explicit state passing: every printing method returns the
updated `Presenter` together with the emitted output.
-/

namespace Rustsec

/-- Embeds `cargo_lock::Package`: name + version identity (the version is kept as
its display string; semver structure is external to this crate). -/
structure Package where
  name : String
  version : String
deriving DecidableEq, Repr

/-- Embeds `cargo_lock::dependency::Dependency` as used for the dedup key:
equality is exact name + version. -/
structure Dependency where
  name : String
  version : String
deriving DecidableEq, Repr

/-- Embeds `Dependency::from(package)`. -/
def Dependency.fromPackage (p : Package) : Dependency :=
  ⟨p.name, p.version⟩

/-- Embeds `rustsec::WarningKind` (external enum; only decidable equality is
used by the presenter). -/
inductive WarningKind where
  | unmaintained
  | unsound
  | yanked
  | notice
deriving DecidableEq, Repr

/-- Embeds `WarningKind::as_str()` (external rendering of the kind). -/
def WarningKind.as_str : WarningKind → String
  | .unmaintained => "unmaintained"
  | .unsound => "unsound"
  | .yanked => "yanked"
  | .notice => "notice"

/-- Embeds `cargo-audit` `DenyOption` configuration selectors. -/
inductive DenyOption where
  | warnings
  | unmaintained
  | unsound
  | yanked
deriving DecidableEq, Repr

/-- Embeds `cargo-audit` `OutputFormat`. -/
inductive OutputFormat where
  | terminal
  | json
deriving DecidableEq, Repr

/-- Embeds `abscissa_core::terminal::Color` as used by the presenter. -/
inductive Color where
  | red
  | yellow
deriving DecidableEq, Repr

/-- Embeds `cargo-audit` `OutputConfig` (the fields the presenter reads). -/
structure OutputConfig where
  format : OutputFormat
  deny : List DenyOption
  show_tree : Option Bool
  quiet : Bool
deriving DecidableEq, Repr

/-- Embeds `rustsec::advisory::License` (external enum; the presenter only
compares against `CcBy40`). -/
inductive License where
  | ccBy40
  | ccBy30
  | other (name : String)
deriving DecidableEq, Repr

/-- Embeds `rustsec::advisory::Id`: the id string together with the URL the
external `Id::url()` derivation yields for it (`None` when no URL can be
derived from the id). -/
structure Id where
  name : String
  derivedUrl : Option String
deriving DecidableEq, Repr

/-- Embeds `Id::url()` (external derivation, carried on the modelled id). -/
def Id.url (i : Id) : Option String :=
  i.derivedUrl

/-- Embeds `rustsec::advisory::Metadata` (the fields `print_metadata` reads;
`cvss` carries the externally rendered `"score (severity)"` text). -/
structure Metadata where
  title : String
  date : String
  id : Id
  license : License
  url : Option String
  cvss : Option String
deriving DecidableEq, Repr

/-- Embeds `rustsec::Vulnerability` as read by the presenter: the affected
package, its advisory metadata and the patched version list rendered as
strings (`versions.patched()`). -/
structure Vulnerability where
  package : Package
  advisory : Metadata
  patched : List String
deriving DecidableEq, Repr

/-- Embeds `rustsec::Warning` as read by the presenter. -/
structure Warning where
  kind : WarningKind
  package : Package
  advisory : Option Metadata
deriving DecidableEq, Repr

/-- The `vulnerabilities` slice of a `rustsec::Report`: list + found
flag + count. -/
structure VulnerabilityInfo where
  found : Bool
  count : Nat
  list : List Vulnerability
deriving DecidableEq, Repr

/-- Embeds `rustsec::Report`: vulnerabilities plus warnings grouped by kind
(the `BTreeMap<WarningKind, Vec<Warning>>` is modelled as an association
list in iteration order). -/
structure Report where
  vulnerabilities : VulnerabilityInfo
  warnings : List (WarningKind × List Warning)
deriving DecidableEq, Repr

/-- One item of terminal output. -/
inductive OutputItem where
  | attr (color : Color) (label : String) (content : String)
  | statusErr (msg : String)
  | statusWarn (msg : String)
  | treeBlock (color : Color) (root : Dependency)
  | blankLine
  | jsonReport (report : Report)
deriving DecidableEq, Repr

/-- The presenter state (`cargo-audit` `Presenter`). -/
structure Presenter where
  displayed_packages : List Dependency
  deny_warning_kinds : List WarningKind
  config : OutputConfig
deriving DecidableEq, Repr

namespace Presenter

/-- Embeds `Presenter::warning_word`. -/
def warning_word (count : Nat) : String :=
  if count ≠ 1 then "warnings" else "warning"

/-- Embeds `Presenter::warning_color`. -/
def warning_color (deny_warning : Bool) : Color :=
  if deny_warning then Color.red else Color.yellow

/-- Embeds `Presenter::count_warnings`: count denied and allowed warnings,
returning `(denied, allowed)`. -/
def count_warnings (p : Presenter) (report : Report) : Nat × Nat :=
  report.warnings.foldl
    (fun acc kw =>
      if kw.1 ∈ p.deny_warning_kinds then
        (acc.1 + kw.2.length, acc.2)
      else
        (acc.1, acc.2 + kw.2.length))
    (0, 0)

/-- Embeds `Presenter::should_exit_with_failure`. -/
def should_exit_with_failure (p : Presenter) (report : Report) : Bool :=
  if report.vulnerabilities.found then
    true
  else if (p.count_warnings report).1 ≠ 0 then
    true
  else
    false

/-- Embeds `Presenter::should_exit_with_failure_due_to_self`. -/
def should_exit_with_failure_due_to_self (p : Presenter)
    (self_advisories : List Metadata) : Bool :=
  !self_advisories.isEmpty && p.config.deny.contains DenyOption.warnings

/-- Embeds `Presenter::print_metadata`: title, date, id, the URL chosen by the
license-dependent priority rule, and the severity score when present. -/
def print_metadata (m : Metadata) (color : Color) : List OutputItem :=
  [OutputItem.attr color "Title:    " m.title,
   OutputItem.attr color "Date:     " m.date,
   OutputItem.attr color "ID:       " m.id.name]
  ++ (if m.license = License.ccBy40 then
        -- We must preserve the original URL from the `url` field
        match m.url with
        | some url => [OutputItem.attr color "URL:      " url]
        | none =>
          match m.id.url with
          | some url => [OutputItem.attr color "URL:      " url]
          | none => []
      else
        -- Prefer ID URL over the (usually non-canonical) `url` field
        match m.id.url with
        | some url => [OutputItem.attr color "URL:      " url]
        | none =>
          match m.url with
          | some url => [OutputItem.attr color "URL:      " url]
          | none => [])
  ++ (match m.cvss with
      | some score => [OutputItem.attr color "Severity: " score]
      | none => [])

/-- Embeds `Presenter::print_tree`: show the inverse dependency tree once per
package; the dedup insertion precedes the `show_tree` gate. -/
def print_tree (p : Presenter) (color : Color) (package : Package) :
    Presenter × List OutputItem :=
  if Dependency.fromPackage package ∈ p.displayed_packages then
    (p, [])
  else
    let p' := { p with
      displayed_packages := Dependency.fromPackage package :: p.displayed_packages }
    if (p.config.show_tree.getD true) = false then
      (p', [])
    else
      (p', [OutputItem.attr color "Dependency tree:\n" "",
            OutputItem.treeBlock color (Dependency.fromPackage package)])

/-- Embeds `Presenter::print_vulnerability`. -/
def print_vulnerability (p : Presenter) (v : Vulnerability) :
    Presenter × List OutputItem :=
  let head :=
    [OutputItem.attr Color.red "Crate:    " v.package.name,
     OutputItem.attr Color.red "Version:  " v.package.version]
    ++ print_metadata v.advisory Color.red
    ++ (if v.patched.isEmpty then
          [OutputItem.attr Color.red "Solution: " "No fixed upgrade is available!"]
        else
          [OutputItem.attr Color.red "Solution: "
            ("Upgrade to " ++ String.intercalate " OR " v.patched)])
  ((p.print_tree Color.red v.package).1,
   head ++ (p.print_tree Color.red v.package).2 ++ [OutputItem.blankLine])

/-- Embeds `Presenter::print_warning`. -/
def print_warning (p : Presenter) (w : Warning) :
    Presenter × List OutputItem :=
  let color := warning_color (p.deny_warning_kinds.contains w.kind)
  let head :=
    [OutputItem.attr color "Crate:    " w.package.name,
     OutputItem.attr color "Version:  " w.package.version,
     OutputItem.attr color "Warning:  " w.kind.as_str]
    ++ (match w.advisory with
        | some metadata => print_metadata metadata color
        | none => [])
  ((p.print_tree color w.package).1,
   head ++ (p.print_tree color w.package).2 ++ [OutputItem.blankLine])

/-- Thread the presenter through a list of printing steps, concatenating
output (models a `for` loop over `&mut self` printing calls). -/
def runPrints {α : Type} (f : Presenter → α → Presenter × List OutputItem)
    (p : Presenter) : List α → Presenter × List OutputItem
  | [] => (p, [])
  | x :: xs =>
    ((runPrints f (f p x).1 xs).1,
     (f p x).2 ++ (runPrints f (f p x).1 xs).2)

/-- The aggregate vulnerability-count line of `print_report`
(`status_err!` with singular/plural and optional path). -/
def vulnCountItems (report : Report) (path : Option String) : List OutputItem :=
  if report.vulnerabilities.found then
    if report.vulnerabilities.count = 1 then
      match path with
      | some pa => [OutputItem.statusErr ("1 vulnerability found in " ++ pa)]
      | none => [OutputItem.statusErr "1 vulnerability found!"]
    else
      match path with
      | some pa =>
        [OutputItem.statusErr
          (toString report.vulnerabilities.count ++ " vulnerabilities found in " ++ pa)]
      | none =>
        [OutputItem.statusErr
          (toString report.vulnerabilities.count ++ " vulnerabilities found!")]
  else []

/-- The aggregate denied/allowed warning-count lines of `print_report`. -/
def warnCountItems (num_denied num_not_denied : Nat) (path : Option String) :
    List OutputItem :=
  if num_denied > 0 ∨ num_not_denied > 0 then
    (if num_denied > 0 then
      match path with
      | some pa =>
        [OutputItem.statusErr
          (toString num_denied ++ " denied " ++ warning_word num_denied
            ++ " found in " ++ pa)]
      | none =>
        [OutputItem.statusErr
          (toString num_denied ++ " denied " ++ warning_word num_denied ++ " found!")]
     else [])
    ++
    (if num_not_denied > 0 then
      match path with
      | some pa =>
        [OutputItem.statusWarn
          (toString num_not_denied ++ " allowed " ++ warning_word num_not_denied
            ++ " found in " ++ pa)]
      | none =>
        [OutputItem.statusWarn
          (toString num_not_denied ++ " allowed " ++ warning_word num_not_denied
            ++ " found")]
     else [])
  else []

/-- Embeds `Presenter::print_report`: JSON mode serializes the report and
returns; terminal mode prints every vulnerability, every warning grouped
by kind, then the aggregate count lines. -/
def print_report (p : Presenter) (report : Report) (path : Option String) :
    Presenter × List OutputItem :=
  if p.config.format = OutputFormat.json then
    (p, [OutputItem.jsonReport report])
  else
    let p1 := (runPrints print_vulnerability p report.vulnerabilities.list).1
    let out1 := (runPrints print_vulnerability p report.vulnerabilities.list).2
    let p2 := (runPrints (fun q kw => runPrints print_warning q kw.2) p1 report.warnings).1
    let out2 := (runPrints (fun q kw => runPrints print_warning q kw.2) p1 report.warnings).2
    (p2, out1 ++ out2 ++ vulnCountItems report path
          ++ warnCountItems (p2.count_warnings report).1 (p2.count_warnings report).2 path)

end Presenter

/-- Whether an output item is an error-severity status line
(`status_err!`). -/
def OutputItem.isErr : OutputItem → Bool
  | .statusErr _ => true
  | _ => false

/-- Whether an output list contains an error-severity status line. -/
def containsErr (out : List OutputItem) : Bool :=
  out.any OutputItem.isErr

/-- The contents of the URL attribute lines of an output list. -/
def urlLines (out : List OutputItem) : List String :=
  out.filterMap fun i =>
    match i with
    | OutputItem.attr _ label content =>
      if label = "URL:      " then some content else none
    | _ => none

/-- The number of warnings in a report whose kind is in the given deny
set (the specification-level reading of the denied-warning count). -/
def countDenied (deny : List WarningKind) (report : Report) : Nat :=
  ((report.warnings.filter fun kw => kw.1 ∈ deny).map fun kw => kw.2.length).sum

/-- A terminal-mode presenter with an empty deny set (concrete value for
instantiating the theorems below). -/
def samplePresenter : Presenter :=
  ⟨[], [], ⟨OutputFormat.terminal, [], none, false⟩⟩

/-- A JSON-mode presenter with an empty deny set. -/
def sampleJsonPresenter : Presenter :=
  ⟨[], [], ⟨OutputFormat.json, [], none, false⟩⟩

/-- A terminal-mode presenter with tree display disabled. -/
def sampleNoTreePresenter : Presenter :=
  ⟨[], [], ⟨OutputFormat.terminal, [], some false, false⟩⟩

/-- A terminal-mode presenter configured with `--deny warnings`. -/
def sampleDenyPresenter : Presenter :=
  ⟨[], [], ⟨OutputFormat.terminal, [DenyOption.warnings], none, false⟩⟩

/-- A report with one vulnerability found and no warnings. -/
def sampleVulnReport : Report :=
  ⟨⟨true, 1, []⟩, []⟩

/-- An advisory metadata record under CC-BY-4.0 with both an explicit
URL and an id-derived URL. -/
def sampleCcMetadata : Metadata :=
  ⟨"title", "2024-01-01", ⟨"RUSTSEC-2024-0001", some "derived"⟩,
   License.ccBy40, some "explicit", none⟩

/-- An advisory metadata record under a non-CC-BY-4.0 license with both
an explicit URL and an id-derived URL. -/
def sampleOtherMetadata : Metadata :=
  ⟨"title", "2024-01-01", ⟨"RUSTSEC-2024-0002", some "derived"⟩,
   License.ccBy30, some "explicit", none⟩

/-- A sample package. -/
def samplePackage : Package :=
  ⟨"acme", "1.0.0"⟩

end Rustsec

namespace Admin

/-- Embeds `rustsec::Collection` (external enum: crate packages vs. the Rust
toolchain). -/
inductive Collection where
  | crates
  | rust
deriving DecidableEq, Repr

/-- Per-version classification status emitted by the lister. -/
inductive VersionStatus where
  | vulnerable
  | ok
deriving DecidableEq, Repr

/-- An advisory as read by `list_versions.rs`: target crate name,
optional collection category, and the external version-range membership
predicate `versions.is_vulnerable` (over an abstract version type `V`,
since semver matching is external). -/
structure Advisory (V : Type) where
  id : String
  package : String
  collection : Option Collection
  isVulnerable : V → Bool

/-- The per-version loop of `process_one_advisory`: parse each version
string (a parse failure is fatal — `rustsec::Version::parse(..).unwrap()`,
modelled as `none`) and emit one (version, status) pair per version. -/
def classifyVersions {V : Type} (parse : String → Option V) (adv : Advisory V) :
    List String → Option (List (String × VersionStatus))
  | [] => some []
  | vs :: rest =>
    match parse vs with
    | none => none
    | some v =>
      match classifyVersions parse adv rest with
      | none => none
      | some out =>
        some ((vs, if adv.isVulnerable v then VersionStatus.vulnerable
                   else VersionStatus.ok) :: out)

/-- Embeds `AffectedVersionLister::process_one_advisory`: look up the crate's
published versions in the index (a missing crate is fatal:
`unwrap_or_else(|| panic!(..))`), then classify each published version.
`none` models a panic. -/
def process_one_advisory {V : Type} (parse : String → Option V)
    (index : String → Option (List String)) (adv : Advisory V) :
    Option (List (String × VersionStatus)) :=
  match index adv.package with
  | none => none
  | some versions => classifyVersions parse adv versions

/-- A concrete two-version parse function over `Nat` versions (for
instantiating the classifier theorems below). -/
def sampleParse : String → Option Nat :=
  fun s => if s = "0.9.0" then some 0 else if s = "1.0.0" then some 1 else none

/-- A concrete index holding the crate `demo` with two published
versions. -/
def sampleIndex : String → Option (List String) :=
  fun s => if s = "demo" then some ["0.9.0", "1.0.0"] else none

/-- A crate advisory against `demo` whose range predicate matches
exactly the versions below `1.0.0`. -/
def sampleAdvisory : Advisory Nat :=
  ⟨"RUSTSEC-0001", "demo", some Collection.crates, fun v => v < 1⟩

/-- A toolchain advisory (non-crate collection). -/
def sampleToolchainAdvisory : Advisory Nat :=
  ⟨"RUSTSEC-0002", "rust", some Collection.rust, fun _ => false⟩

/-- An advisory whose collection category is unset. -/
def sampleNoCollectionAdvisory : Advisory Nat :=
  ⟨"RUSTSEC-0003", "demo", none, fun _ => false⟩

/-- Embeds `AffectedVersionLister::process_all_advisories`: iterate the whole
advisory database; `advisory.metadata.collection.unwrap()` panics on a
missing collection (modelled as `none`), non-crate collections are
skipped, crate advisories are processed in order. -/
def process_all_advisories {V : Type} (parse : String → Option V)
    (index : String → Option (List String)) :
    List (Advisory V) → Option (List (List (String × VersionStatus)))
  | [] => some []
  | adv :: rest =>
    match adv.collection with
    | none => none
    | some c =>
      if c ≠ Collection.crates then
        process_all_advisories parse index rest
      else
        match process_one_advisory parse index adv with
        | none => none
        | some out =>
          match process_all_advisories parse index rest with
          | none => none
          | some outs => some (out :: outs)

end Admin

namespace Rustsec

theorem containsErr_append (a b : List OutputItem) :
    containsErr (a ++ b) = (containsErr a || containsErr b) := by
  simp [containsErr]

theorem containsErr_eq_false_iff (out : List OutputItem) :
    containsErr out = false ↔ ∀ i ∈ out, OutputItem.isErr i = false := by
  simp [containsErr]

theorem containsErr_print_metadata (m : Metadata) (c : Color) :
    containsErr (Presenter.print_metadata m c) = false := by
  unfold Presenter.print_metadata
  repeat' split
  all_goals try simp [containsErr, OutputItem.isErr]

theorem isErr_print_metadata (m : Metadata) (c : Color) :
    ∀ i ∈ Presenter.print_metadata m c, OutputItem.isErr i = false :=
  (containsErr_eq_false_iff _).mp (containsErr_print_metadata m c)

/-- Technical lemma: `print_tree` never emits an error status line and
leaves the deny set and configuration untouched. -/
theorem print_tree_state (p : Presenter) (c : Color) (pkg : Package) :
    (p.print_tree c pkg).1.deny_warning_kinds = p.deny_warning_kinds ∧
    (p.print_tree c pkg).1.config = p.config ∧
    containsErr (p.print_tree c pkg).2 = false := by
  unfold Presenter.print_tree
  repeat' split <;> simp [containsErr, OutputItem.isErr]

theorem isErr_print_tree (p : Presenter) (c : Color) (pkg : Package) :
    ∀ i ∈ (p.print_tree c pkg).2, OutputItem.isErr i = false :=
  (containsErr_eq_false_iff _).mp (print_tree_state p c pkg).2.2

/-- Technical lemma: `print_vulnerability` never emits an error status
line and leaves the deny set and configuration untouched. -/
theorem print_vulnerability_state (p : Presenter) (v : Vulnerability) :
    (p.print_vulnerability v).1.deny_warning_kinds = p.deny_warning_kinds ∧
    (p.print_vulnerability v).1.config = p.config ∧
    containsErr (p.print_vulnerability v).2 = false := by
  obtain ⟨h1, h2, h3⟩ := print_tree_state p Color.red v.package
  refine ⟨h1, h2, (containsErr_eq_false_iff _).mpr ?_⟩
  have hm := isErr_print_metadata v.advisory Color.red
  have ht := isErr_print_tree p Color.red v.package
  simp only [Presenter.print_vulnerability, List.forall_mem_append]
  refine ⟨⟨⟨⟨by simp [OutputItem.isErr], hm⟩, ?_⟩, ht⟩, by simp [OutputItem.isErr]⟩
  split <;> simp [OutputItem.isErr]

/-- Technical lemma: `print_warning` never emits an error status line
and leaves the deny set and configuration untouched. -/
theorem print_warning_state (p : Presenter) (w : Warning) :
    (p.print_warning w).1.deny_warning_kinds = p.deny_warning_kinds ∧
    (p.print_warning w).1.config = p.config ∧
    containsErr (p.print_warning w).2 = false := by
  obtain ⟨h1, h2, h3⟩ :=
    print_tree_state p (Presenter.warning_color (p.deny_warning_kinds.contains w.kind)) w.package
  refine ⟨h1, h2, (containsErr_eq_false_iff _).mpr ?_⟩
  have ht := isErr_print_tree p
    (Presenter.warning_color (p.deny_warning_kinds.contains w.kind)) w.package
  simp only [Presenter.print_warning, List.forall_mem_append]
  refine ⟨⟨⟨by simp [OutputItem.isErr], ?_⟩, ht⟩, by simp [OutputItem.isErr]⟩
  cases w.advisory with
  | none => simp
  | some m => exact isErr_print_metadata m _

/-- Technical lemma: a loop of printing steps that each preserve the
deny set and configuration and emit no error status line also does. -/
theorem runPrints_state {α : Type} (f : Presenter → α → Presenter × List OutputItem)
    (hf : ∀ q x, (f q x).1.deny_warning_kinds = q.deny_warning_kinds ∧
          (f q x).1.config = q.config ∧ containsErr (f q x).2 = false)
    (xs : List α) (p : Presenter) :
    (Presenter.runPrints f p xs).1.deny_warning_kinds = p.deny_warning_kinds ∧
    (Presenter.runPrints f p xs).1.config = p.config ∧
    containsErr (Presenter.runPrints f p xs).2 = false := by
  induction xs generalizing p with
  | nil => simp [Presenter.runPrints, containsErr]
  | cons x xs ih =>
    obtain ⟨h1, h2, h3⟩ := hf p x
    obtain ⟨g1, g2, g3⟩ := ih (f p x).1
    exact ⟨by rw [Presenter.runPrints]; rw [g1, h1],
           by rw [Presenter.runPrints]; rw [g2, h2],
           by rw [Presenter.runPrints]; simp [containsErr_append, h3, g3]⟩

theorem count_warnings_congr (p q : Presenter) (report : Report)
    (h : p.deny_warning_kinds = q.deny_warning_kinds) :
    p.count_warnings report = q.count_warnings report := by
  unfold Presenter.count_warnings
  rw [h]

/-- Technical lemma: the first component of the `count_warnings` fold
is the number of warnings whose kind lies in the deny set. -/
theorem count_warnings_fst (p : Presenter) (report : Report) :
    (p.count_warnings report).1 = countDenied p.deny_warning_kinds report := by
  unfold Presenter.count_warnings countDenied
  generalize report.warnings = ws
  suffices h : ∀ (ws : List (WarningKind × List Warning)) (acc : Nat × Nat),
      (ws.foldl
        (fun acc kw =>
          if kw.1 ∈ p.deny_warning_kinds then (acc.1 + kw.2.length, acc.2)
          else (acc.1, acc.2 + kw.2.length)) acc).1
        = acc.1 + ((ws.filter fun kw => kw.1 ∈ p.deny_warning_kinds).map
            fun kw => kw.2.length).sum by
    simpa using h ws (0, 0)
  intro ws
  induction ws with
  | nil => intro acc; simp
  | cons kw ws ih =>
    intro acc
    by_cases h : kw.1 ∈ p.deny_warning_kinds <;> (simp [h, ih]; try omega)

theorem containsErr_vulnCountItems (report : Report) (path : Option String) :
    containsErr (Presenter.vulnCountItems report path) = report.vulnerabilities.found := by
  unfold Presenter.vulnCountItems
  cases hf : report.vulnerabilities.found with
  | false => simp [hf, containsErr]
  | true =>
    by_cases hc : report.vulnerabilities.count = 1 <;>
      cases path <;> simp [hf, hc, containsErr, OutputItem.isErr]

theorem containsErr_warnCountItems (d a : Nat) (path : Option String) :
    containsErr (Presenter.warnCountItems d a path) = decide (0 < d) := by
  unfold Presenter.warnCountItems
  rcases Nat.eq_zero_or_pos d with hd | hd
  · subst hd
    by_cases ha : 0 < a
    · cases path <;> simp [ha, containsErr, OutputItem.isErr]
    · cases path <;> simp [ha, containsErr]
  · have hd' : ¬ d = 0 := Nat.pos_iff_ne_zero.mp hd
    cases path <;>
      by_cases ha : 0 < a <;>
        simp [hd, ha, containsErr, containsErr_append, OutputItem.isErr]

/-- C3: rendering the dependency path of the same package twice in one
presenter lifetime emits output only once: the second `print_tree` call
always emits nothing, so the concatenated output of the two calls
equals the output of the first call alone; and with tree display
enabled the first call on a not-yet-displayed package renders the tree
block (dedup by exact name+version key in `displayed_packages`). -/
theorem C3_tree_dedup_idempotent (p : Presenter) (c c' : Color) (pkg : Package) :
    ((p.print_tree c pkg).1.print_tree c' pkg).2 = [] ∧
    (p.print_tree c pkg).2 ++ ((p.print_tree c pkg).1.print_tree c' pkg).2 =
      (p.print_tree c pkg).2 ∧
    (p.config.show_tree ≠ some false →
      Dependency.fromPackage pkg ∉ p.displayed_packages →
      (p.print_tree c pkg).2 =
        [OutputItem.attr c "Dependency tree:\n" "",
         OutputItem.treeBlock c (Dependency.fromPackage pkg)]) := by
  have h2 : ((p.print_tree c pkg).1.print_tree c' pkg).2 = [] := by
    unfold Presenter.print_tree
    by_cases hmem : Dependency.fromPackage pkg ∈ p.displayed_packages
    · simp [hmem]
    · rw [if_neg hmem]
      split <;> simp
  refine ⟨h2, by rw [h2, List.append_nil], ?_⟩
  intro hshow hfresh
  have hshow' : p.config.show_tree.getD true = true := by
    cases h : p.config.show_tree with
    | none => rfl
    | some b =>
      cases b with
      | false => exact absurd h hshow
      | true => rfl
  unfold Presenter.print_tree
  rw [if_neg hfresh, hshow']
  simp

/-- Witness for C3 at a concrete presenter and package. -/
theorem C3_witness :
    ((samplePresenter.print_tree Color.red samplePackage).1.print_tree
        Color.red samplePackage).2 = [] ∧
    (samplePresenter.print_tree Color.red samplePackage).2 ++
      ((samplePresenter.print_tree Color.red samplePackage).1.print_tree
        Color.red samplePackage).2 =
      (samplePresenter.print_tree Color.red samplePackage).2 ∧
    (samplePresenter.print_tree Color.red samplePackage).2 =
      [OutputItem.attr Color.red "Dependency tree:\n" "",
       OutputItem.treeBlock Color.red (Dependency.fromPackage samplePackage)] := by
  have h := C3_tree_dedup_idempotent samplePresenter Color.red Color.red
    samplePackage
  exact ⟨h.1, h.2.1, h.2.2 (by decide) (by decide)⟩

/-- C7: in machine-readable (JSON) output mode, `print_report` emits
only the serialization of the full report and leaves the presenter —
including its `displayed_packages` dedup set — unchanged. -/
theorem C7_json_mode_frame (p : Presenter) (report : Report)
    (path : Option String) (h : p.config.format = OutputFormat.json) :
    p.print_report report path = (p, [OutputItem.jsonReport report]) := by
  unfold Presenter.print_report
  rw [if_pos h]

/-- Witness for C7 at a concrete JSON-mode presenter and report. -/
theorem C7_witness :
    Presenter.print_report sampleJsonPresenter sampleVulnReport none =
      (sampleJsonPresenter, [OutputItem.jsonReport sampleVulnReport]) :=
  C7_json_mode_frame sampleJsonPresenter sampleVulnReport none rfl

/-- C8: on first encounter of a package, `print_tree` inserts the
package's name+version key into `displayed_packages` unconditionally —
also when `show_tree` is configured off — while the `show_tree` flag
gates only whether tree text is emitted. -/
theorem C8_dedup_insertion_unconditional (p : Presenter) (c : Color)
    (pkg : Package)
    (hfresh : Dependency.fromPackage pkg ∉ p.displayed_packages) :
    (p.print_tree c pkg).1.displayed_packages =
      Dependency.fromPackage pkg :: p.displayed_packages ∧
    (p.config.show_tree = some false → (p.print_tree c pkg).2 = []) := by
  unfold Presenter.print_tree
  rw [if_neg hfresh]
  constructor
  · split <;> rfl
  · intro h
    rw [h]
    simp

/-- C4: `print_metadata` URL priority — for a CC-BY-4.0 advisory the
printed URL is the explicit `url` field when present, falling back to
the id-derived URL; for every other license the printed URL is the
id-derived URL when present, falling back to the explicit `url` field. -/
theorem C4_url_priority (m : Metadata) (c : Color) :
    (m.license = License.ccBy40 →
      (∀ u, m.url = some u → urlLines (Presenter.print_metadata m c) = [u]) ∧
      (m.url = none → ∀ u, m.id.url = some u →
        urlLines (Presenter.print_metadata m c) = [u])) ∧
    (m.license ≠ License.ccBy40 →
      (∀ u, m.id.url = some u → urlLines (Presenter.print_metadata m c) = [u]) ∧
      (m.id.url = none → ∀ u, m.url = some u →
        urlLines (Presenter.print_metadata m c) = [u])) := by
  constructor
  · intro hl
    constructor
    · intro u hu
      unfold Presenter.print_metadata urlLines
      rw [if_pos hl, hu]
      cases m.cvss <;> simp
    · intro hn u hu
      unfold Presenter.print_metadata urlLines
      rw [if_pos hl, hn, hu]
      cases m.cvss <;> simp
  · intro hl
    constructor
    · intro u hu
      unfold Presenter.print_metadata urlLines
      rw [if_neg hl, hu]
      cases m.cvss <;> simp
    · intro hn u hu
      unfold Presenter.print_metadata urlLines
      rw [if_neg hl, hn, hu]
      cases m.cvss <;> simp

/-- Witness for C4: a CC-BY-4.0 advisory with both URLs present prints
the explicit URL; another license with both present prints the
id-derived URL. -/
theorem C4_witness :
    urlLines (Presenter.print_metadata sampleCcMetadata Color.red) = ["explicit"] ∧
    urlLines (Presenter.print_metadata sampleOtherMetadata Color.red) = ["derived"] :=
  ⟨((C4_url_priority sampleCcMetadata Color.red).1 rfl).1 "explicit" rfl,
   ((C4_url_priority sampleOtherMetadata Color.red).2 (by decide)).1 "derived" rfl⟩

/-- C10: `print_metadata` emits a URL line iff at least one of the two
candidate URLs (the explicit `url` field, the id-derived URL) exists; in
every case the title, date and ID lines are printed. -/
theorem C10_url_line_presence (m : Metadata) (c : Color) :
    (urlLines (Presenter.print_metadata m c) = [] ↔
      m.url = none ∧ m.id.url = none) ∧
    OutputItem.attr c "Title:    " m.title ∈ Presenter.print_metadata m c ∧
    OutputItem.attr c "Date:     " m.date ∈ Presenter.print_metadata m c ∧
    OutputItem.attr c "ID:       " m.id.name ∈ Presenter.print_metadata m c := by
  refine ⟨?_, ?_, ?_, ?_⟩
  · unfold Presenter.print_metadata urlLines
    by_cases hl : m.license = License.ccBy40
    · rw [if_pos hl]
      cases hu : m.url <;> cases hi : m.id.url <;> cases m.cvss <;> simp [hu, hi]
    · rw [if_neg hl]
      cases hu : m.url <;> cases hi : m.id.url <;> cases m.cvss <;> simp [hu, hi]
  · simp [Presenter.print_metadata]
  · simp [Presenter.print_metadata]
  · simp [Presenter.print_metadata]

/-- C5: `should_exit_with_failure_due_to_self` is true iff the
self-advisory list is non-empty and `--deny warnings` is configured; it
is false on the empty list regardless of configuration, and depends on
nothing but the deny configuration and the list. -/
theorem C5_self_advisory_gating (p : Presenter) (advisories : List Metadata) :
    (p.should_exit_with_failure_due_to_self advisories = true ↔
      advisories ≠ [] ∧ DenyOption.warnings ∈ p.config.deny) ∧
    (advisories = [] →
      p.should_exit_with_failure_due_to_self advisories = false) ∧
    (∀ q : Presenter, q.config.deny = p.config.deny →
      q.should_exit_with_failure_due_to_self advisories =
        p.should_exit_with_failure_due_to_self advisories) := by
  refine ⟨?_, ?_, ?_⟩
  · unfold Presenter.should_exit_with_failure_due_to_self
    cases advisories <;> simp [List.contains]
  · intro h
    subst h
    rfl
  · intro q hq
    unfold Presenter.should_exit_with_failure_due_to_self
    rw [hq]

/-- Witness for C5: with `--deny warnings` configured the check fails on
a one-element list and passes on the empty list. -/
theorem C5_witness :
    Presenter.should_exit_with_failure_due_to_self sampleDenyPresenter
      [sampleCcMetadata] = true ∧
    Presenter.should_exit_with_failure_due_to_self sampleDenyPresenter [] = false :=
  ⟨((C5_self_advisory_gating sampleDenyPresenter [sampleCcMetadata]).1).mpr
      ⟨by simp, by simp [sampleDenyPresenter]⟩,
   (C5_self_advisory_gating sampleDenyPresenter []).2.1 rfl⟩

/-- C9: the aggregate vulnerability line of `print_report` uses the
singular message exactly when the count is 1 and the plural form for
any other count; `warning_word` is "warning" exactly for count 1 and
"warnings" otherwise. -/
theorem C9_plural_forms (report : Report) (path : Option String) (n : Nat) :
    (report.vulnerabilities.found = true →
      (report.vulnerabilities.count = 1 →
        Presenter.vulnCountItems report path =
          [OutputItem.statusErr
            (match path with
             | some pa => "1 vulnerability found in " ++ pa
             | none => "1 vulnerability found!")]) ∧
      (report.vulnerabilities.count ≠ 1 →
        Presenter.vulnCountItems report path =
          [OutputItem.statusErr
            (match path with
             | some pa =>
               toString report.vulnerabilities.count ++ " vulnerabilities found in " ++ pa
             | none =>
               toString report.vulnerabilities.count ++ " vulnerabilities found!")])) ∧
    (Presenter.warning_word n = "warning" ↔ n = 1) ∧
    (Presenter.warning_word n = "warnings" ↔ n ≠ 1) := by
  refine ⟨?_, ?_, ?_⟩
  · intro hf
    constructor <;> intro hc <;> unfold Presenter.vulnCountItems <;>
      cases path <;> simp [hf, hc]
  · unfold Presenter.warning_word
    by_cases h : n = 1 <;> simp [h]
  · unfold Presenter.warning_word
    by_cases h : n = 1 <;> simp [h]

/-- Witness for C9: count 1 yields the singular message, count 2 the
plural message. -/
theorem C9_witness :
    Presenter.vulnCountItems ⟨⟨true, 1, []⟩, []⟩ none =
      [OutputItem.statusErr "1 vulnerability found!"] ∧
    Presenter.vulnCountItems ⟨⟨true, 2, []⟩, []⟩ none =
      [OutputItem.statusErr "2 vulnerabilities found!"] := by
  constructor
  · exact ((C9_plural_forms ⟨⟨true, 1, []⟩, []⟩ none 1).1 rfl).1 rfl
  · have h := ((C9_plural_forms ⟨⟨true, 2, []⟩, []⟩ none 2).1 rfl).2 (by decide)
    simpa using h

/-- Witness for C8 at a concrete presenter with tree display off. -/
theorem C8_witness :
    (sampleNoTreePresenter.print_tree Color.red samplePackage).1.displayed_packages =
      [Dependency.fromPackage samplePackage] ∧
    (sampleNoTreePresenter.print_tree Color.red samplePackage).2 = [] := by
  have h := C8_dedup_insertion_unconditional sampleNoTreePresenter Color.red
    samplePackage (by decide)
  exact ⟨h.1, h.2 rfl⟩

/-- C1 (amended): `should_exit_with_failure` is true iff a vulnerability
was found or the number of warnings whose kind is in the deny set is
nonzero; and in human-readable (non-JSON) output mode `print_report`
emits an error-severity aggregate line exactly when
`should_exit_with_failure` is true. -/
theorem C1_denial_consistency (p : Presenter) (report : Report)
    (path : Option String) :
    (p.should_exit_with_failure report = true ↔
      (report.vulnerabilities.found = true ∨
        countDenied p.deny_warning_kinds report ≠ 0)) ∧
    (p.config.format ≠ OutputFormat.json →
      (p.should_exit_with_failure report = true ↔
        containsErr (p.print_report report path).2 = true)) := by
  have hfst := count_warnings_fst p report
  constructor
  · unfold Presenter.should_exit_with_failure
    rw [hfst]
    by_cases hf : report.vulnerabilities.found <;>
      by_cases hd : countDenied p.deny_warning_kinds report = 0 <;>
        simp [hf, hd]
  · intro hfmt
    have hv := runPrints_state Presenter.print_vulnerability
      print_vulnerability_state report.vulnerabilities.list p
    have hw := runPrints_state
      (fun q kw => Presenter.runPrints Presenter.print_warning q kw.2)
      (fun q kw => runPrints_state Presenter.print_warning
        print_warning_state kw.2 q)
      report.warnings
      (Presenter.runPrints Presenter.print_vulnerability p
        report.vulnerabilities.list).1
    unfold Presenter.print_report
    rw [if_neg hfmt]
    have hdeny :
        (Presenter.runPrints
          (fun q kw => Presenter.runPrints Presenter.print_warning q kw.2)
          (Presenter.runPrints Presenter.print_vulnerability p
            report.vulnerabilities.list).1
          report.warnings).1.deny_warning_kinds = p.deny_warning_kinds := by
      rw [hw.1, hv.1]
    have hcw := count_warnings_congr _ p report hdeny
    simp only [containsErr_append, hv.2.2, hw.2.2, containsErr_vulnCountItems,
      containsErr_warnCountItems, Bool.false_or, hcw]
    unfold Presenter.should_exit_with_failure
    rw [hfst]
    by_cases hf : report.vulnerabilities.found <;>
      by_cases hd : countDenied p.deny_warning_kinds report = 0 <;>
        simp [hf, hd, hfst, Nat.pos_iff_ne_zero]

/-- Counterexample for C1 as frozen: with a JSON output configuration
and a report with a found vulnerability, `should_exit_with_failure` is
true yet `print_report` emits no error-severity line, so the printed
equivalence does not hold for arbitrary output configurations. -/
theorem C1_counterexample :
    Presenter.should_exit_with_failure sampleJsonPresenter sampleVulnReport
      = true ∧
    containsErr
      (Presenter.print_report sampleJsonPresenter sampleVulnReport none).2
      = false := by
  exact ⟨rfl, rfl⟩

/-- Witness for C1 at a concrete terminal-mode presenter. -/
theorem C1_witness :
    Presenter.should_exit_with_failure samplePresenter sampleVulnReport
      = true ∧
    containsErr
      (Presenter.print_report samplePresenter sampleVulnReport none).2
      = true := by
  have h := C1_denial_consistency samplePresenter sampleVulnReport none
  have hf : Presenter.should_exit_with_failure samplePresenter
      sampleVulnReport = true := (h.1).mpr (Or.inl rfl)
  exact ⟨hf, (h.2 (by decide)).mp hf⟩

end Rustsec

namespace Admin

theorem classifyVersions_map {V : Type} (parse : String → Option V)
    (adv : Advisory V) (pv : String → V) :
    ∀ versions : List String, (∀ vs ∈ versions, parse vs = some (pv vs)) →
      classifyVersions parse adv versions =
        some (versions.map fun vs =>
          (vs, if adv.isVulnerable (pv vs) then VersionStatus.vulnerable
               else VersionStatus.ok)) := by
  intro versions
  induction versions with
  | nil => intro _; rfl
  | cons vs rest ih =>
    intro h
    have hh := h vs (List.mem_cons_self vs rest)
    have ht := ih (fun x hx => h x (List.mem_cons_of_mem vs hx))
    simp [classifyVersions, hh, ht]

theorem classifyVersions_fatal {V : Type} (parse : String → Option V)
    (adv : Advisory V) :
    ∀ versions : List String, (∃ vs ∈ versions, parse vs = none) →
      classifyVersions parse adv versions = none := by
  intro versions
  induction versions with
  | nil =>
    rintro ⟨vs, hvs, _⟩
    cases hvs
  | cons v rest ih =>
    rintro ⟨vs, hvs, hnone⟩
    rcases List.mem_cons.mp hvs with heq | hmem
    · subst heq
      simp [classifyVersions, hnone]
    · have hr := ih ⟨vs, hmem, hnone⟩
      cases hp : parse v <;> simp [classifyVersions, hp, hr]

/-- C2: classifying one advisory emits exactly one (version, status)
pair per published version of its target crate — `vulnerable` exactly
when the advisory's range predicate holds on the parsed version — a
version-string parse failure is fatal for the whole crate rather than
skipped, and iterating a database of crate-category advisories visits
every advisory exactly once. -/
theorem C2_version_classification {V : Type} (parse : String → Option V)
    (index : String → Option (List String)) :
    (∀ (adv : Advisory V) (versions : List String) (pv : String → V),
      index adv.package = some versions →
      (∀ vs ∈ versions, parse vs = some (pv vs)) →
      process_one_advisory parse index adv =
        some (versions.map fun vs =>
          (vs, if adv.isVulnerable (pv vs) then VersionStatus.vulnerable
               else VersionStatus.ok))) ∧
    (∀ (adv : Advisory V) (versions : List String),
      index adv.package = some versions →
      (∃ vs ∈ versions, parse vs = none) →
      process_one_advisory parse index adv = none) ∧
    (∀ (db : List (Advisory V)) (outs : Advisory V → List (String × VersionStatus)),
      (∀ adv ∈ db, adv.collection = some Collection.crates) →
      (∀ adv ∈ db, process_one_advisory parse index adv = some (outs adv)) →
      process_all_advisories parse index db = some (db.map outs)) := by
  refine ⟨?_, ?_, ?_⟩
  · intro adv versions pv hidx hp
    unfold process_one_advisory
    rw [hidx]
    exact classifyVersions_map parse adv pv versions hp
  · intro adv versions hidx hex
    unfold process_one_advisory
    rw [hidx]
    exact classifyVersions_fatal parse adv versions hex
  · intro db outs
    induction db with
    | nil =>
      intro _ _
      rfl
    | cons adv rest ih =>
      intro hcol hone
      have h1 := hcol adv (List.mem_cons_self adv rest)
      have h2 := hone adv (List.mem_cons_self adv rest)
      have h3 := ih (fun a ha => hcol a (List.mem_cons_of_mem adv ha))
        (fun a ha => hone a (List.mem_cons_of_mem adv ha))
      simp [process_all_advisories, h1, h2, h3]

/-- Witness for C2 at the concrete sample advisory and index: versions
below 1.0.0 are vulnerable, 1.0.0 is OK. -/
theorem C2_witness :
    process_one_advisory sampleParse sampleIndex sampleAdvisory =
      some [("0.9.0", VersionStatus.vulnerable), ("1.0.0", VersionStatus.ok)] ∧
    process_all_advisories sampleParse sampleIndex [sampleAdvisory] =
      some [[("0.9.0", VersionStatus.vulnerable), ("1.0.0", VersionStatus.ok)]] := by
  have h := C2_version_classification sampleParse sampleIndex
  have h1 := h.1 sampleAdvisory ["0.9.0", "1.0.0"]
    (fun vs => if vs = "0.9.0" then 0 else 1) rfl (by decide)
  have h3 := h.2.2 [sampleAdvisory]
    (fun _ => [("0.9.0", VersionStatus.vulnerable), ("1.0.0", VersionStatus.ok)])
    (by decide) (by decide)
  constructor
  · simpa [sampleAdvisory] using h1
  · simpa using h3

/-- C6: in whole-database iteration an advisory with a present but
non-crate collection category is skipped without error, while an
advisory with a missing collection category makes the iteration fail
fatally. -/
theorem C6_collection_routing {V : Type} (parse : String → Option V)
    (index : String → Option (List String)) (adv : Advisory V)
    (rest : List (Advisory V)) :
    (∀ c, adv.collection = some c → c ≠ Collection.crates →
      process_all_advisories parse index (adv :: rest) =
        process_all_advisories parse index rest) ∧
    (adv.collection = none →
      process_all_advisories parse index (adv :: rest) = none) := by
  constructor
  · intro c hc hne
    simp [process_all_advisories, hc, hne]
  · intro hc
    simp [process_all_advisories, hc]

/-- Witness for C6: a toolchain advisory is skipped without affecting
the rest of the iteration; a missing collection category is fatal. -/
theorem C6_witness :
    process_all_advisories sampleParse sampleIndex
        [sampleToolchainAdvisory, sampleAdvisory] =
      process_all_advisories sampleParse sampleIndex [sampleAdvisory] ∧
    process_all_advisories sampleParse sampleIndex
        [sampleNoCollectionAdvisory, sampleAdvisory] = none :=
  ⟨(C6_collection_routing sampleParse sampleIndex sampleToolchainAdvisory
      [sampleAdvisory]).1 Collection.rust rfl (by decide),
   (C6_collection_routing sampleParse sampleIndex sampleNoCollectionAdvisory
      [sampleAdvisory]).2 rfl⟩

end Admin
